import Mathlib

/-!
Verification development for the session orchestration and credential
rotation engine of the repository (src/server.js, single-session reactive
variant; src/unnamed/part_000, dual-session hot-swap variant).

The JavaScript source is shallowly embedded: pure decision logic becomes
Lean functions, stateful code becomes explicit state passing, and the
behaviour of the external browser and network is abstracted into explicit
parameters (per-attempt call outcomes, per-tick page observations).
Machine timing (setTimeout delays) is recorded as data in event traces.
-/

namespace AiIdeApi

/-! ## String utilities

The source classifies errors by lowercased substring search
(String.prototype.includes on a toLowerCase result).  We embed substring
search directly on character lists. -/

/-- matchesAt needle hay is true when needle is a prefix of hay. -/
def matchesAt : List Char → List Char → Bool
  | [], _ => true
  | _ :: _, [] => false
  | a :: as, b :: bs => a == b && matchesAt as bs

/-- hasSub needle hay is true when needle occurs as a contiguous
subsequence of hay. -/
def hasSub (needle : List Char) : List Char → Bool
  | [] => matchesAt needle []
  | c :: t => matchesAt needle (c :: t) || hasSub needle t

/-- lowerContains hay needle embeds hay.toLowerCase().includes(needle),
the pattern used throughout the error classifiers of the source; all the
needles appearing in the source are lowercase literals, and lowering is
per-character as in JavaScript for the ASCII texts involved. -/
def lowerContains (hay needle : String) : Bool :=
  hasSub needle.data (hay.data.map Char.toLower)

/-! ## Credential validation (src/server.js SessionPool.updateToken,
lines 1660-1690, and the validation step of BrowserSession.waitForLogin,
lines 664-677) -/

/-- RawCred models the raw value offered as a credential: a JavaScript
string, an object (with the three probed fields as optional strings and
its JSON serialization), or a falsy value (null, undefined, empty). -/
inductive RawCred where
  | nullish : RawCred
  | str : String → RawCred
  | obj : Option String → Option String → Option String → String → RawCred
deriving DecidableEq, Repr

/-- firstTruthy fields json embeds the JavaScript chain
token.token or token.value or token.auth_token or JSON.stringify(token):
the first present, non-empty (truthy) field wins, else the serialization. -/
def firstTruthy : List (Option String) → String → String
  | [], json => json
  | none :: rest, json => firstTruthy rest json
  | some s :: rest, json => if s = "" then firstTruthy rest json else s

/-- tokenSentinel lists the literal sentinel strings rejected by
updateToken (line 1674 of src/server.js). -/
def tokenSentinel (s : String) : Bool :=
  s = "\x7b\x7d" || s = "null" || s = "undefined"

/-- updateTokenValidate embeds the validation logic of
SessionPool.updateToken (src/server.js lines 1660-1677): falsy input is
ignored; an object is probed via firstTruthy; the resulting string is
rejected when its length is below 20 or it equals a sentinel.  The
subsequent unchanged-from-cache check and persistence side effect are not
part of validation and are modelled separately. -/
def updateTokenValidate : RawCred → Option String
  | RawCred.nullish => none
  | RawCred.str s =>
      if s = "" then none
      else if s.length < 20 || tokenSentinel s then none else some s
  | RawCred.obj t v a json =>
      let s := firstTruthy [t, v, a] json
      if s.length < 20 || tokenSentinel s then none else some s

/-- loginTokenAccept embeds the acceptance test of the login-wait loop
(src/server.js line 672): the string must be strictly longer than 20
characters and differ from the two sentinels checked there. -/
def loginTokenAccept (s : String) : Bool :=
  decide (20 < s.length) && s != "\x7b\x7d" && s != "null"

/-- loginExtract embeds lines 664-677 of src/server.js: the observed token
is probed like updateToken probes objects, then accepted by
loginTokenAccept; a falsy token is skipped (the loop continues). -/
def loginExtract : RawCred → Option String
  | RawCred.nullish => none
  | RawCred.str s =>
      if s = "" then none
      else if loginTokenAccept s then some s else none
  | RawCred.obj t v a json =>
      let s := firstTruthy [t, v, a] json
      if loginTokenAccept s then some s else none

/-! ## Page status probe (src/server.js BrowserSession.getPageStatus,
lines 1023-1120)

The in-page evaluation inspects the puter global and localStorage; its
environment is captured explicitly.  The outer method guards against a
missing page and a throwing evaluation. -/

/-- PageStatusR is the shape returned by getPageStatus: an api-presence
flag and an optional token string. -/
structure PageStatusR where
  api : Bool
  token : Option String
deriving DecidableEq, Repr

/-- LSEntry models one localStorage entry: its key, the raw stored string,
and the outcome of JSON.parse on it (some fields when it parses to an
object with the three probed members, none when parsing fails or yields a
non-object). -/
structure LSEntry where
  key : String
  raw : String
  parsed : Option (Option String × Option String × Option String)
deriving DecidableEq, Repr

/-- PageEnv captures the in-page environment read by the evaluation:
whether the puter global exists, whether puter.ai is truthy, whether the
property-access block throws, the values of puter.authToken and
puter.auth.token, and the localStorage contents. -/
structure PageEnv where
  puterPresent : Bool
  puterAi : Bool
  accessThrows : Bool
  authToken : RawCred
  authAlt : RawCred
  storage : List LSEntry
deriving Repr

/-- authTokenValue embeds lines 1033-1049 of src/server.js: the truthy
puter.authToken is probed (object chain or direct string) and returned
only when the extracted string is longer than 20 characters; otherwise
the evaluation falls through. -/
def authTokenValue : RawCred → Option String
  | RawCred.nullish => none
  | RawCred.str s =>
      if s = "" then none
      else if decide (20 < s.length) then some s else none
  | RawCred.obj t v a json =>
      let tok := firstTruthy [t, v, a] json
      if tok = "" then none
      else if decide (20 < tok.length) then some tok else none

/-- authAltValue embeds lines 1053-1067 of src/server.js: the alternative
path via puter.auth.token, whose object probe checks only token and value
before the JSON fallback. -/
def authAltValue : RawCred → Option String
  | RawCred.nullish => none
  | RawCred.str s =>
      if s = "" then none
      else if decide (20 < s.length) then some s else none
  | RawCred.obj t v _a json =>
      let tok := firstTruthy [t, v] json
      if tok = "" then none
      else if decide (20 < tok.length) then some tok else none

/-- storageKeys is the fixed key list of lines 1075-1082. -/
def storageKeys : List String :=
  ["puter.auth.token", "puter.authToken", "auth.token", "authToken",
   "token", "auth_token"]

/-- lsLookup embeds localStorage.getItem over the modelled store. -/
def lsLookup : List LSEntry → String → Option LSEntry
  | [], _ => none
  | e :: rest, k => if e.key = k then some e else lsLookup rest k

/-- lsEntryToken embeds the per-key body of the fallback loop
(lines 1084-1109): the raw value must be truthy, longer than 20
characters and not a sentinel; the parsed object is probed with the raw
value as final fallback; the extracted token must again be truthy and
longer than 20 characters, else the loop continues. -/
def lsEntryToken (e : LSEntry) : Option String :=
  if e.raw = "" then none
  else if decide (20 < e.raw.length) && e.raw != "undefined" && e.raw != "null" then
    let tok :=
      match e.parsed with
      | some (t, v, a) => firstTruthy [t, v, a] e.raw
      | none => e.raw
    if tok = "" then none
    else if decide (20 < tok.length) then some tok else none
  else none

/-- scanStorage walks storageKeys in order, returning the first extracted
token. -/
def scanStorage (store : List LSEntry) : List String → Option String
  | [] => none
  | k :: rest =>
      match lsLookup store k with
      | none => scanStorage store rest
      | some e =>
          match lsEntryToken e with
          | some t => some t
          | none => scanStorage store rest

/-- pageEvalStorage embeds the localStorage fallback and the final return
of the in-page evaluation (lines 1074-1114). -/
def pageEvalStorage (env : PageEnv) : PageStatusR :=
  match scanStorage env.storage storageKeys with
  | some t => { api := env.puterPresent && env.puterAi, token := some t }
  | none => { api := env.puterPresent && env.puterAi, token := none }

/-- pageEval embeds the whole in-page evaluation (lines 1026-1115): the
puter property paths run inside a try that falls through to the
localStorage fallback when the global is absent or access throws. -/
def pageEval (env : PageEnv) : PageStatusR :=
  if env.puterPresent && !env.accessThrows then
    match authTokenValue env.authToken with
    | some t => { api := env.puterAi, token := some t }
    | none =>
        match authAltValue env.authAlt with
        | some t => { api := env.puterAi, token := some t }
        | none => pageEvalStorage env
  else pageEvalStorage env

/-- GPSInput packages the inputs of one getPageStatus call: whether the
session still has a page, whether page.evaluate rejects, and the in-page
environment. -/
structure GPSInput where
  hasPage : Bool
  evalThrows : Bool
  env : PageEnv
deriving Repr

/-- getPageStatus embeds src/server.js lines 1023-1120: a missing page
and a throwing evaluation both produce the api-false, token-null default
instead of propagating. -/
def getPageStatus (inp : GPSInput) : PageStatusR :=
  if !inp.hasPage then { api := false, token := none }
  else if inp.evalThrows then { api := false, token := none }
  else pageEval inp.env

/-! ## Login-wait loop and init retry (src/server.js
BrowserSession.waitForLogin lines 647-758, BrowserSession.init
lines 479-613)

The browser is abstracted into a per-tick observation stream: tick i of
attempt a yields a PageObs (the api flag and raw token the page would
report).  Button clicking and the registration sub-flow only influence
later observations and are absorbed into the stream. -/

/-- PageObs is one observation of the page during the login-wait loop. -/
structure PageObs where
  api : Bool
  token : RawCred

/-- tickValue embeds one iteration of the login-wait loop body
(lines 664-677): the api flag and a validating token are both required. -/
def tickValue (o : PageObs) : Option String :=
  if o.api then loginExtract o.token else none

/-- LOGIN_MAX_TICKS is the loop bound of line 652 (60 iterations). -/
def LOGIN_MAX_TICKS : Nat := 60

/-- LOGIN_POLL_MS is the per-tick delay of line 653 (2000 ms). -/
def LOGIN_POLL_MS : Nat := 2000

/-- scanTicks returns the first tick value produced within the bound. -/
def scanTicks (f : Nat → Option String) : Nat → Nat → Option String
  | _, 0 => none
  | i, Nat.succ rem =>
      match f i with
      | some t => some t
      | none => scanTicks f (i + 1) rem

/-- waitForLoginModel embeds waitForLogin: the first valid tick yields the
token, exhaustion of the bound raises the Login Timeout error
(line 756). -/
def waitForLoginModel (obs : Nat → PageObs) : Except String String :=
  match scanTicks (fun i => tickValue (obs i)) 0 LOGIN_MAX_TICKS with
  | some t => Except.ok t
  | none => Except.error "Login Timeout"

/-- SessionM is the session-visible state written by init and
waitForLogin. -/
structure SessionM where
  id : Nat
  token : Option String
  isReady : Bool
  status : String
deriving DecidableEq, Repr

/-- INIT_MAX_RETRIES is the init attempt bound of line 481. -/
def INIT_MAX_RETRIES : Nat := 3

/-- initFrom runs the attempt loop of init from a given attempt index with
a given number of attempts remaining; a successful login marks the session
ready with the fresh token, and the final failed attempt marks it dead
(line 606) and rethrows the login error. -/
def initFrom (obs : Nat → Nat → PageObs) (s : SessionM) :
    Nat → Nat → Except String Unit × SessionM
  | 0, _ => (Except.error "Login Timeout", { s with status := "dead" })
  | Nat.succ rem, attempt =>
      match waitForLoginModel (obs attempt) with
      | Except.ok t =>
          (Except.ok (), { s with token := some t, isReady := true, status := "ready" })
      | Except.error e =>
          if rem = 0 then (Except.error e, { s with status := "dead" })
          else initFrom obs s rem (attempt + 1)

/-- initModel embeds BrowserSession.init: the existingToken parameter is
declared by the source (line 479) but never read, and line 590 documents
that no token is injected; every attempt performs the full login wait. -/
def initModel (existingToken : Option String) (obs : Nat → Nat → PageObs)
    (s : SessionM) : Except String Unit × SessionM :=
  initFrom obs s INIT_MAX_RETRIES 1

/-- createSessionM embeds SessionPool.createSession (src/server.js
lines 1641-1658): the counter is incremented, a fresh session is built and
initialized with a null token argument; the persisted credential cache is
never consulted.  The updateToken side effect on success touches only the
pool cache, modelled separately by updateTokenValidate. -/
def createSessionM (sessionCounter : Nat) (persisted : Option String)
    (obs : Nat → Nat → PageObs) : Except String SessionM × Nat :=
  let newCounter := sessionCounter + 1
  let s0 : SessionM :=
    { id := newCounter, token := none, isReady := false, status := "initializing" }
  match initModel none obs s0 with
  | (Except.ok _, s) => (Except.ok s, newCounter)
  | (Except.error e, _) => (Except.error e, newCounter)

/-! ## Execution guard (src/server.js safeExecute, lines 1750-1820)

The capability function fn is abstracted into a per-attempt behaviour:
attempt n either resolves (with an optional embedded serialized error
text) or rejects with an error whose toString text is given.  The pool is
the single-session variant: rotation closes the primary and installs a
freshly created session with the next counter value.  Timing delays are
recorded as backoff events. -/

/-- CallOutcome is the behaviour of one capability invocation attempt. -/
inductive CallOutcome where
  | success : Option String → CallOutcome
  | thrown : String → CallOutcome
deriving DecidableEq, Repr

/-- limitSignal embeds the embedded-error check of lines 1768-1772. -/
def limitSignal (s : String) : Bool :=
  lowerContains s "insufficient_funds" || lowerContains s "usage-limited" ||
  lowerContains s "limit" || lowerContains s "quota"

/-- recoverableSig embeds the recoverability classifier of src/server.js
lines 1791-1802. -/
def recoverableSig (s : String) : Bool :=
  lowerContains s "limit" || lowerContains s "quota" ||
  lowerContains s "429" || lowerContains s "rate" ||
  lowerContains s "insufficient_funds" || lowerContains s "usage-limited" ||
  lowerContains s "navigat" || lowerContains s "protocol" ||
  lowerContains s "session" || lowerContains s "target closed"

/-- isRecoverableV2 embeds the recoverability classifier of
src/unnamed/part_000 lines 1191-1199, which lists neither rate nor
session. -/
def isRecoverableV2 (s : String) : Bool :=
  lowerContains s "limit" || lowerContains s "quota" ||
  lowerContains s "429" || lowerContains s "insufficient_funds" ||
  lowerContains s "navigat" || lowerContains s "protocol" ||
  lowerContains s "target closed"

/-- specRecoverable follows the wording of the specification (section 4.5
and claim C5): limit or quota signals, or the transport-failure signals
429, rate, navigat, protocol, target closed, or generic session.  It is
the spec-side reference the source classifiers are compared against. -/
def specRecoverable (s : String) : Bool :=
  limitSignal s || lowerContains s "429" || lowerContains s "rate" ||
  lowerContains s "navigat" || lowerContains s "protocol" ||
  lowerContains s "target closed" || lowerContains s "session"

/-- MAX_RETRIES is the retry bound of line 1751. -/
def MAX_RETRIES : Nat := 2

/-- PoolSt is the pool state the guard touches: the session counter, the
current primary session id, and the per-session activeRequests count
(an Int, since the source uses a JavaScript number). -/
structure PoolSt where
  counter : Nat
  primary : Nat
  active : Nat → Int

/-- bump adjusts the activeRequests count of one session. -/
def bump (st : PoolSt) (sid : Nat) (d : Int) : PoolSt :=
  { st with active := fun n => if n = sid then st.active n + d else st.active n }

/-- rotatePool embeds the effect of pool.rotateOnLimitError
(lines 1583-1619): the old primary is closed and a freshly created
session with the next counter value becomes primary. -/
def rotatePool (st : PoolSt) : PoolSt :=
  { st with counter := st.counter + 1, primary := st.counter + 1 }

/-- GuardEvent is the observable trace of one guarded execution: attempt
starts, the LIMIT_REACHED raise, backoff delays in ms, rotations with the
new primary id, and the final propagated error. -/
inductive GuardEvent where
  | attempt : Nat → GuardEvent
  | limitRaised : String → GuardEvent
  | backoff : Nat → GuardEvent
  | rotated : Nat → GuardEvent
  | propagated : String → GuardEvent
deriving DecidableEq, Repr

/-- attemptOnce embeds the try block of safeExecute for one attempt
together with the catch-side decrement (lines 1754-1789): the count is
incremented after acquisition; a resolving fn decrements it on the success
path; a rejecting fn skips that decrement and the catch decrements once; a
resolved result embedding a limit signal throws LIMIT_REACHED after the
success-path decrement, and the catch then decrements the same session a
second time. -/
def attemptOnce (o : CallOutcome) (sid : Nat) (st : PoolSt) :
    Except String (Option String) × PoolSt × List GuardEvent :=
  let st1 := bump st sid 1
  match o with
  | CallOutcome.thrown m =>
      (Except.error m, bump st1 sid (-1), [GuardEvent.attempt sid])
  | CallOutcome.success none =>
      (Except.ok none, bump st1 sid (-1), [GuardEvent.attempt sid])
  | CallOutcome.success (some t) =>
      let st2 := bump st1 sid (-1)
      if limitSignal t then
        (Except.error ("Error: LIMIT_REACHED: " ++ t), bump st2 sid (-1),
          [GuardEvent.attempt sid, GuardEvent.limitRaised t])
      else
        (Except.ok (some t), st2, [GuardEvent.attempt sid])

/-- safeExecuteAux runs safeExecute with the number of retries still
allowed made explicit (remaining = MAX_RETRIES - retryCount, so the
bound check retryCount < MAX_RETRIES of line 1804 becomes remaining
positive): a recoverable error with retries remaining records the backoff
delay (retryCount + 1) * 2000 of line 1808, rotates the pool, and
recurses; otherwise the error propagates unchanged. -/
def safeExecuteAux (beh : Nat → CallOutcome) :
    Nat → Nat → PoolSt → Except String (Option String) × PoolSt × List GuardEvent
  | 0, retryCount, st =>
      match attemptOnce (beh retryCount) st.primary st with
      | (Except.ok r, st1, evs) => (Except.ok r, st1, evs)
      | (Except.error e, st1, evs) =>
          (Except.error e, st1, evs ++ [GuardEvent.propagated e])
  | Nat.succ rem, retryCount, st =>
      match attemptOnce (beh retryCount) st.primary st with
      | (Except.ok r, st1, evs) => (Except.ok r, st1, evs)
      | (Except.error e, st1, evs) =>
          if recoverableSig e then
            let st2 := rotatePool st1
            let rest := safeExecuteAux beh rem (retryCount + 1) st2
            (rest.1, rest.2.1,
              evs ++ GuardEvent.backoff ((retryCount + 1) * 2000) ::
                GuardEvent.rotated st2.primary :: rest.2.2)
          else (Except.error e, st1, evs ++ [GuardEvent.propagated e])

/-- safeExecute embeds src/server.js safeExecute entered at a given
retryCount. -/
def safeExecute (beh : Nat → CallOutcome) (retryCount : Nat) (st : PoolSt) :
    Except String (Option String) × PoolSt × List GuardEvent :=
  safeExecuteAux beh (MAX_RETRIES - retryCount) retryCount st

/-- isAttemptEv selects attempt events in a guard trace. -/
def isAttemptEv : GuardEvent → Bool
  | GuardEvent.attempt _ => true
  | _ => false

/-- countAttempts counts how many times the capability invocation was
attempted in a guard trace. -/
def countAttempts (evs : List GuardEvent) : Nat :=
  (evs.filter isAttemptEv).length

/-! ## Rotation concurrency (src/server.js SessionPool.rotateOnLimitError
lines 1583-1619; src/unnamed/part_000 SessionPool.hotSwap
lines 1053-1117)

Concurrency is the cooperative single-thread model of the source: a step
runs atomically between awaits.  rotateOnLimitError suspends first inside
its rotation body (the 3000 ms drain delay), so any number of further
callers can enter before the body progresses; its entry step and the body
completion are therefore modelled separately, with the rotation promise
identified by a ticket.  hotSwap has no suspension point between setting
and clearing its isRotating flag, so each call is one atomic step. -/

/-- RotSt is the rotation-relevant state of the single-session pool. -/
structure RotSt where
  counter : Nat
  primary : Option Nat
  isRotating : Bool
  pendingTicket : Option Nat
  nextTicket : Nat
  rotationsDone : Nat
deriving DecidableEq, Repr

/-- rotateEnter embeds the synchronous head of rotateOnLimitError
(lines 1584-1592): a caller arriving mid-rotation receives the in-flight
rotation promise; the first caller registers a new one and sets the
flag.  The returned ticket identifies the promise the caller awaits. -/
def rotateEnter (st : RotSt) : Nat × RotSt :=
  if st.isRotating then
    (st.pendingTicket.getD st.nextTicket, st)
  else
    (st.nextTicket,
      { st with isRotating := true, pendingTicket := some st.nextTicket,
                nextTicket := st.nextTicket + 1 })

/-- rotateFinish embeds the rotation body completing (lines 1592-1616):
the old primary is closed, one new session with the next counter value
becomes primary, and the flag and promise are cleared. -/
def rotateFinish (st : RotSt) : RotSt :=
  { st with counter := st.counter + 1, primary := some (st.counter + 1),
            rotationsDone := st.rotationsDone + 1,
            isRotating := false, pendingTicket := none }

/-- enterMany performs n rotateOnLimitError entries back to back, before
the rotation body has progressed, collecting the tickets the callers
await. -/
def enterMany : Nat → RotSt → List Nat × RotSt
  | 0, st => ([], st)
  | Nat.succ n, st =>
      let p := rotateEnter st
      let rest := enterMany n p.2
      (p.1 :: rest.1, rest.2)

/-- HotPoolSt is the rotation-relevant state of the dual-session pool of
src/unnamed/part_000. -/
structure HotPoolSt where
  counter : Nat
  active : Option Nat
  standby : Option Nat
  isRotating : Bool
  swapCount : Nat
deriving DecidableEq, Repr

/-- hotSwapStep embeds one hotSwap call (src/unnamed/part_000
lines 1053-1117) as a single atomic step, which it is: the body has no
await between setting and clearing isRotating, the old active is closed
fire-and-forget, and the replacement standby is created in the background
(it arrives after the modelled window).  A caller seeing isRotating true
sleeps and returns the current active without swapping.  Otherwise the
standby reference becomes active and the standby slot empties; with a
standby present the call resolves to the new active, but with an empty
standby slot the swap still empties the pool and line 1072 then reads
this.active.id on null, so the call rejects with the TypeError, which the
catch rethrows after clearing the flag. -/
def hotSwapStep (st : HotPoolSt) : Except String (Option Nat) × HotPoolSt :=
  if st.isRotating then (Except.ok st.active, st)
  else
    match st.standby with
    | some b =>
        (Except.ok (some b),
          { st with active := some b, standby := none,
                    swapCount := st.swapCount + 1 })
    | none =>
        (Except.error "TypeError: Cannot read properties of null (reading id)",
          { st with active := none, standby := none,
                    swapCount := st.swapCount + 1 })

/-! ## Session acquisition (src/server.js SessionPool.getSession
lines 1692-1712; src/unnamed/part_000 SessionPool.getSession
lines 1032-1051)

The rotation-wait and init-wait at the head of getSession are awaited
before the decision logic runs and are absorbed into the entry state.
The forceRotate outcome is a parameter: either the error thrown by the
failed session creation, or the created session. -/

/-- SessRef is a session as the acquisition path sees it. -/
structure SessRef where
  id : Nat
  isReady : Bool
deriving DecidableEq, Repr

/-- recoverOutcome embeds the recovery tail of src/server.js getSession
(lines 1706-1711): forceRotate is awaited, its own error propagating
as-is; a ready new primary is returned, a non-ready one raises the pool
unavailability error.  The Nat component counts recovery attempts. -/
def recoverOutcome (recovery : Except String SessRef) :
    Except String SessRef × Nat :=
  match recovery with
  | Except.error e => (Except.error e, 1)
  | Except.ok s2 =>
      if s2.isReady then (Except.ok s2, 1)
      else (Except.error "Session unavailable after recovery attempt", 1)

/-- getSessionModel embeds src/server.js getSession lines 1692-1712. -/
def getSessionModel (primary : Option SessRef)
    (recovery : Except String SessRef) : Except String SessRef × Nat :=
  match primary with
  | some s => if s.isReady then (Except.ok s, 0) else recoverOutcome recovery
  | none => recoverOutcome recovery

/-- v2Fallback embeds the standby fallback of src/unnamed/part_000
getSession (lines 1044-1050): a ready standby is promoted by one hotSwap
(counted as the one rotation attempt) and returned; otherwise the pool
raises immediately, with no recovery attempt performed. -/
def v2Fallback (standby : Option SessRef) : Except String SessRef × Nat :=
  match standby with
  | some b =>
      if b.isReady then (Except.ok b, 1)
      else (Except.error "No sessions available", 0)
  | none => (Except.error "No sessions available", 0)

/-- getSessionV2 embeds src/unnamed/part_000 getSession
lines 1032-1051. -/
def getSessionV2 (active standby : Option SessRef) :
    Except String SessRef × Nat :=
  match active with
  | some a => if a.isReady then (Except.ok a, 0) else v2Fallback standby
  | none => v2Fallback standby

/-- notReadyOpt holds of an optional session slot whose occupant, if any,
is not ready. -/
def notReadyOpt (p : Option SessRef) : Prop :=
  ∀ s, p = some s → s.isReady = false

/-! ## Substring infrastructure lemmas -/

theorem matchesAt_iff (nd : List Char) :
    ∀ hay, matchesAt nd hay = true ↔ nd <+: hay := by
  induction nd with
  | nil => intro hay; simp [matchesAt, List.nil_prefix]
  | cons a as ih =>
      intro hay
      cases hay with
      | nil => simp [matchesAt]
      | cons b bs =>
          simp [matchesAt, Bool.and_eq_true, beq_iff_eq, ih,
            List.cons_prefix_cons]

theorem hasSub_iff (nd : List Char) :
    ∀ hay, hasSub nd hay = true ↔ nd <:+: hay := by
  intro hay
  induction hay with
  | nil =>
      cases nd with
      | nil => simp [hasSub, matchesAt]
      | cons a as => simp [hasSub, matchesAt]
  | cons c t ih =>
      simp [hasSub, Bool.or_eq_true, matchesAt_iff, ih, List.infix_cons_iff]

theorem hasSub_trans {n1 n2 hay : List Char} (h12 : hasSub n1 n2 = true)
    (h2h : hasSub n2 hay = true) : hasSub n1 hay = true := by
  rw [hasSub_iff] at *
  exact h12.trans h2h

theorem hasSub_append_left {nd p : List Char} (q : List Char)
    (h : hasSub nd p = true) : hasSub nd (p ++ q) = true := by
  rw [hasSub_iff] at *
  obtain ⟨s, t, rfl⟩ := h
  exact ⟨s, t ++ q, by simp⟩

theorem lowerContains_append_left {p : String} (q nd : String)
    (h : lowerContains p nd = true) : lowerContains (p ++ q) nd = true := by
  unfold lowerContains at *
  rw [String.data_append, List.map_append]
  exact hasSub_append_left _ h

theorem usageLimited_to_limit {s : String}
    (h : lowerContains s "usage-limited" = true) :
    lowerContains s "limit" = true := by
  unfold lowerContains at *
  exact hasSub_trans (by decide) h

/-! ## C2: credential validation -/

/-- C2 counterexample: the claim says the validator of updateToken rejects
every string of length 20 or less, but updateToken (src/server.js
line 1674) only rejects lengths strictly below 20, so a 20-character
string is accepted. -/
theorem C2_counterexample :
    updateTokenValidate (RawCred.str "aaaaaaaaaaaaaaaaaaaa") =
      some "aaaaaaaaaaaaaaaaaaaa" ∧
    ("aaaaaaaaaaaaaaaaaaaa" : String).length = 20 := by
  decide

/-- C2 amended: object inputs are probed through the token, value,
auth_token chain with the JSON serialization as fallback in both
validators; updateToken rejects strings shorter than 20 characters and
the literal sentinels, while the login-wait validator rejects strings of
length 20 or less; both accept every 32-plus-character string
unchanged. -/
theorem C2_validator_amended :
    (∀ t v a json, updateTokenValidate (RawCred.obj t v a json) =
        updateTokenValidate (RawCred.str (firstTruthy [t, v, a] json))) ∧
    (∀ t v a json, loginExtract (RawCred.obj t v a json) =
        loginExtract (RawCred.str (firstTruthy [t, v, a] json))) ∧
    (∀ s : String, s.length < 20 ∨ tokenSentinel s = true →
        updateTokenValidate (RawCred.str s) = none) ∧
    (∀ s : String, s.length ≤ 20 → loginExtract (RawCred.str s) = none) ∧
    (∀ s : String, s.length = 20 → updateTokenValidate (RawCred.str s) = some s) ∧
    (∀ s : String, 32 ≤ s.length →
        updateTokenValidate (RawCred.str s) = some s ∧
        loginExtract (RawCred.str s) = some s) := by
  refine ⟨?_, ?_, ?_, ?_, ?_, ?_⟩
  · intro t v a json
    by_cases h : firstTruthy [t, v, a] json = ""
    · simp [updateTokenValidate, h, tokenSentinel]
    · simp [updateTokenValidate, h]
  · intro t v a json
    by_cases h : firstTruthy [t, v, a] json = ""
    · simp [loginExtract, h, loginTokenAccept]
    · simp [loginExtract, h]
  · intro s h
    rcases h with h | h
    · by_cases hs : s = ""
      · simp [updateTokenValidate, hs]
      · simp [updateTokenValidate, hs, h]
    · by_cases hs : s = ""
      · simp [updateTokenValidate, hs]
      · simp [updateTokenValidate, hs, h]
  · intro s h
    by_cases hs : s = ""
    · simp [loginExtract, hs]
    · have : loginTokenAccept s = false := by
        simp [loginTokenAccept]
        intro hc
        omega
      simp [loginExtract, hs, this]
  · intro s h
    have hs : s ≠ "" := by
      intro he
      rw [he] at h
      simp at h
    have h1 : tokenSentinel s = false := by
      unfold tokenSentinel
      have e1 : s ≠ "\x7b\x7d" := by intro he; rw [he] at h; revert h; decide
      have e2 : s ≠ "null" := by intro he; rw [he] at h; revert h; decide
      have e3 : s ≠ "undefined" := by intro he; rw [he] at h; revert h; decide
      simp [e1, e2, e3]
    have h2 : ¬ s.length < 20 := by omega
    simp [updateTokenValidate, hs, h1, h2]
  · intro s h
    have hs : s ≠ "" := by
      intro he
      rw [he] at h
      simp at h
    have e1 : s ≠ "\x7b\x7d" := by intro he; rw [he] at h; revert h; decide
    have e2 : s ≠ "null" := by intro he; rw [he] at h; revert h; decide
    have e3 : s ≠ "undefined" := by intro he; rw [he] at h; revert h; decide
    have h1 : tokenSentinel s = false := by simp [tokenSentinel, e1, e2, e3]
    have h2 : ¬ s.length < 20 := by omega
    have h3 : loginTokenAccept s = true := by
      simp [loginTokenAccept, e1, e2]
      omega
    constructor
    · simp [updateTokenValidate, hs, h1, h2]
    · simp [loginExtract, hs, h3]

/-- C2 witness: the amended theorem applied at concrete inputs. -/
theorem C2_validator_amended_witness :
    updateTokenValidate
        (RawCred.obj (some "tok") (some "val") none "\x7b\x7d") =
      updateTokenValidate (RawCred.str "tok") ∧
    updateTokenValidate (RawCred.str "abc") = none ∧
    loginExtract (RawCred.str "aaaaaaaaaaaaaaaaaaaa") = none ∧
    updateTokenValidate (RawCred.str "abcdefghijklmnopqrstuvwxyz012345") =
      some "abcdefghijklmnopqrstuvwxyz012345" := by
  refine ⟨?_, ?_, ?_, ?_⟩
  · have h := C2_validator_amended.1 (some "tok") (some "val") none "\x7b\x7d"
    simpa using h
  · exact C2_validator_amended.2.2.1 "abc" (Or.inl (by decide))
  · exact C2_validator_amended.2.2.2.1 "aaaaaaaaaaaaaaaaaaaa" (by decide)
  · exact (C2_validator_amended.2.2.2.2.2 "abcdefghijklmnopqrstuvwxyz012345"
      (by decide)).1

/-! ## Execution guard theorems -/

theorem limitReached_msg_recoverable (t : String) :
    recoverableSig ("Error: LIMIT_REACHED: " ++ t) = true := by
  have h : lowerContains ("Error: LIMIT_REACHED: " ++ t) "limit" = true :=
    lowerContains_append_left t "limit" (by decide)
  simp [recoverableSig, h]

/-- C1: the source contradicts the no-negative-refcount invariant it
maintains by reference counting.  A single guarded invocation whose
result embeds a limit-signal error decrements activeRequests on the
success path (src/server.js line 1761) and then again inside the catch
entered by the LIMIT_REACHED throw (line 1785), driving the count of
session 1 from 0 to -1. -/
theorem C1_refcount_goes_negative :
    ((safeExecute (fun _ => CallOutcome.success (some "quota")) 0
        { counter := 1, primary := 1, active := fun _ => 0 }).2.1.active 1 = -1) ∧
    ((-1 : Int) < 0) := by
  constructor
  · decide
  · decide

/-- C3: a guarded invocation whose resolved result embeds an error text
matching a limit signal makes the guard raise LIMIT_REACHED even though
the call resolved, and with retries available the pool rotates, so the
primary session identity differs before and after the handling. -/
theorem C3_limit_result_rotates (t : String) (st : PoolSt)
    (hlim : limitSignal t = true) (hid : st.primary ≤ st.counter) :
    (safeExecute (fun n => if n = 0 then CallOutcome.success (some t)
        else CallOutcome.success none) 0 st).1 = Except.ok none ∧
    GuardEvent.limitRaised t ∈
      (safeExecute (fun n => if n = 0 then CallOutcome.success (some t)
        else CallOutcome.success none) 0 st).2.2 ∧
    (safeExecute (fun n => if n = 0 then CallOutcome.success (some t)
        else CallOutcome.success none) 0 st).2.1.primary = st.counter + 1 ∧
    (safeExecute (fun n => if n = 0 then CallOutcome.success (some t)
        else CallOutcome.success none) 0 st).2.1.primary ≠ st.primary := by
  have hrec := limitReached_msg_recoverable t
  refine ⟨?_, ?_, ?_, ?_⟩ <;>
    simp [safeExecute, MAX_RETRIES, safeExecuteAux, attemptOnce, hlim, hrec,
      rotatePool, bump] <;>
    omega

/-- C3 witness: the theorem applied at a concrete limit text and pool
state. -/
theorem C3_limit_result_rotates_witness :
    (safeExecute (fun n => if n = 0 then CallOutcome.success (some "quota")
        else CallOutcome.success none) 0
        { counter := 1, primary := 1, active := fun _ => 0 }).1 =
      Except.ok none ∧
    GuardEvent.limitRaised "quota" ∈
      (safeExecute (fun n => if n = 0 then CallOutcome.success (some "quota")
        else CallOutcome.success none) 0
        { counter := 1, primary := 1, active := fun _ => 0 }).2.2 ∧
    (safeExecute (fun n => if n = 0 then CallOutcome.success (some "quota")
        else CallOutcome.success none) 0
        { counter := 1, primary := 1, active := fun _ => 0 }).2.1.primary = 2 ∧
    (safeExecute (fun n => if n = 0 then CallOutcome.success (some "quota")
        else CallOutcome.success none) 0
        { counter := 1, primary := 1, active := fun _ => 0 }).2.1.primary ≠ 1 := by
  have h := C3_limit_result_rotates "quota"
    { counter := 1, primary := 1, active := fun _ => 0 } (by decide) (by decide)
  exact h

/-- C4: an invocation that always fails with a recoverable error is
attempted exactly MAX_RETRIES + 1 = 3 times, after which the error
propagates to the caller unchanged. -/
theorem C4_retry_bound (m : String) (st : PoolSt)
    (hm : recoverableSig m = true) :
    (safeExecute (fun _ => CallOutcome.thrown m) 0 st).1 = Except.error m ∧
    countAttempts (safeExecute (fun _ => CallOutcome.thrown m) 0 st).2.2 =
      MAX_RETRIES + 1 ∧
    MAX_RETRIES + 1 = 3 := by
  refine ⟨?_, ?_, ?_⟩ <;>
    simp [safeExecute, MAX_RETRIES, safeExecuteAux, attemptOnce, hm,
      countAttempts, isAttemptEv]

/-- C4 witness: the theorem applied at a concrete recoverable error. -/
theorem C4_retry_bound_witness :
    (safeExecute (fun _ => CallOutcome.thrown "Error: net::ERR navigation failed")
        0 { counter := 1, primary := 1, active := fun _ => 0 }).1 =
      Except.error "Error: net::ERR navigation failed" ∧
    countAttempts (safeExecute
        (fun _ => CallOutcome.thrown "Error: net::ERR navigation failed")
        0 { counter := 1, primary := 1, active := fun _ => 0 }).2.2 =
      MAX_RETRIES + 1 ∧
    MAX_RETRIES + 1 = 3 :=
  C4_retry_bound "Error: net::ERR navigation failed"
    { counter := 1, primary := 1, active := fun _ => 0 } (by decide)

/-- C5 counterexample: an error whose text contains the transport signal
rate (and no other signal) is classified recoverable by the claim but not
by the guard of src/unnamed/part_000, whose classifier omits rate and
session. -/
theorem C5_counterexample :
    specRecoverable "Error: rate exceeded" = true ∧
    isRecoverableV2 "Error: rate exceeded" = false := by
  decide

/-- C5 amended: the src/server.js guard classifies exactly as the claim
states (limit and quota signals or the transport signals 429, rate,
navigat, protocol, target closed, session), while the src/unnamed
guard omits rate and session; a recoverable error with retries remaining
triggers, in order, a backoff whose delay scales with the attempt number,
a rotation, and a retry, while a non-recoverable error propagates
unchanged after a single attempt. -/
theorem C5_classifier_amended :
    (∀ s, recoverableSig s = specRecoverable s) ∧
    (∀ s, isRecoverableV2 s =
        (limitSignal s || lowerContains s "429" || lowerContains s "navigat" ||
         lowerContains s "protocol" || lowerContains s "target closed")) ∧
    (∀ (m : String) (st : PoolSt), recoverableSig m = true →
        (safeExecute (fun _ => CallOutcome.thrown m) 0 st).2.2 =
          [GuardEvent.attempt st.primary,
           GuardEvent.backoff (1 * 2000), GuardEvent.rotated (st.counter + 1),
           GuardEvent.attempt (st.counter + 1),
           GuardEvent.backoff (2 * 2000), GuardEvent.rotated (st.counter + 2),
           GuardEvent.attempt (st.counter + 2),
           GuardEvent.propagated m]) ∧
    (∀ (m : String) (st : PoolSt), recoverableSig m = false →
        safeExecute (fun _ => CallOutcome.thrown m) 0 st =
          (Except.error m, bump (bump st st.primary 1) st.primary (-1),
           [GuardEvent.attempt st.primary, GuardEvent.propagated m])) := by
  refine ⟨?_, ?_, ?_, ?_⟩
  · intro s
    cases hu : lowerContains s "usage-limited" with
    | false =>
        rw [Bool.eq_iff_iff]
        simp [recoverableSig, specRecoverable, limitSignal, hu]
        tauto
    | true =>
        have hl := usageLimited_to_limit hu
        simp [recoverableSig, specRecoverable, limitSignal, hl]
  · intro s
    cases hu : lowerContains s "usage-limited" with
    | false =>
        rw [Bool.eq_iff_iff]
        simp [isRecoverableV2, limitSignal, hu]
        tauto
    | true =>
        have hl := usageLimited_to_limit hu
        simp [isRecoverableV2, limitSignal, hl]
  · intro m st hm
    simp [safeExecute, MAX_RETRIES, safeExecuteAux, attemptOnce, hm,
      rotatePool, bump]
  · intro m st hm
    simp [safeExecute, MAX_RETRIES, safeExecuteAux, attemptOnce, hm]

/-- C5 witness: the amended theorem applied at concrete error texts. -/
theorem C5_classifier_amended_witness :
    recoverableSig "Error: rate exceeded" =
      specRecoverable "Error: rate exceeded" ∧
    (safeExecute (fun _ => CallOutcome.thrown "quota")
        0 { counter := 1, primary := 1, active := fun _ => 0 }).2.2 =
      [GuardEvent.attempt 1,
       GuardEvent.backoff (1 * 2000), GuardEvent.rotated 2,
       GuardEvent.attempt 2,
       GuardEvent.backoff (2 * 2000), GuardEvent.rotated 3,
       GuardEvent.attempt 3,
       GuardEvent.propagated "quota"] := by
  constructor
  · exact C5_classifier_amended.1 "Error: rate exceeded"
  · exact C5_classifier_amended.2.2.1 "quota"
      { counter := 1, primary := 1, active := fun _ => 0 } (by decide)

/-! ## Rotation concurrency theorems -/

theorem enterMany_while_rotating (t : Nat) :
    ∀ (n : Nat) (st : RotSt), st.isRotating = true →
      st.pendingTicket = some t →
      enterMany n st = (List.replicate n t, st) := by
  intro n
  induction n with
  | zero => intro st _ _; simp [enterMany]
  | succ k ih =>
      intro st h1 h2
      simp [enterMany, rotateEnter, h1, h2, ih st h1 h2, List.replicate]

/-- C6 counterexample: in src/unnamed/part_000, two hotSwap calls issued
before either resolves (the body suspends nowhere between setting and
clearing isRotating) both perform their own replacement of the active
reference: the first resolves to the old standby, while the second
empties the pool and then rejects with the TypeError of line 1072 rather
than resolving to the same new session; two replacements have occurred
instead of one. -/
theorem C6_counterexample :
    (hotSwapStep (⟨2, some 1, some 2, false, 0⟩ : HotPoolSt)).1 =
      Except.ok (some 2) ∧
    (hotSwapStep (hotSwapStep (⟨2, some 1, some 2, false, 0⟩ : HotPoolSt)).2).1 =
      Except.error "TypeError: Cannot read properties of null (reading id)" ∧
    (hotSwapStep (hotSwapStep (⟨2, some 1, some 2, false, 0⟩ : HotPoolSt)).2).2.active =
      none ∧
    (hotSwapStep (hotSwapStep (⟨2, some 1, some 2, false, 0⟩ : HotPoolSt)).2).2.swapCount =
      2 := by
  refine ⟨rfl, rfl, rfl, rfl⟩

/-- C6 amended: the single-flight guarantee holds for
src/server.js rotateOnLimitError: any number of callers entering before
the rotation body progresses all receive the same rotation promise
ticket, exactly one new ticket is allocated, no replacement happens until
the single body completes, and its completion performs exactly one
replacement whose new primary identity all callers observe.  The
src/unnamed/part_000 hotSwap has no such guard: every call made while
isRotating is false replaces the active reference with the standby slot
and leaves the flag false again, so N concurrent calls perform N
replacements; a call finding a standby resolves to it, and a call finding
the standby slot empty still empties the pool and then rejects with the
TypeError of line 1072. -/
theorem C6_rotation_amended :
    (∀ (n : Nat) (st : RotSt), st.isRotating = false →
        (enterMany (n + 1) st).1 = List.replicate (n + 1) st.nextTicket ∧
        (enterMany (n + 1) st).2.nextTicket = st.nextTicket + 1 ∧
        (enterMany (n + 1) st).2.counter = st.counter ∧
        (rotateFinish (enterMany (n + 1) st).2).rotationsDone =
          st.rotationsDone + 1 ∧
        (rotateFinish (enterMany (n + 1) st).2).primary =
          some (st.counter + 1)) ∧
    (∀ st : HotPoolSt, st.isRotating = false →
        (hotSwapStep st).2.swapCount = st.swapCount + 1 ∧
        (hotSwapStep st).2.isRotating = false ∧
        (hotSwapStep st).2.active = st.standby ∧
        (∀ b, st.standby = some b → (hotSwapStep st).1 = Except.ok (some b)) ∧
        (st.standby = none → (hotSwapStep st).1 =
          Except.error "TypeError: Cannot read properties of null (reading id)")) := by
  constructor
  · intro n st h
    have hstep : enterMany (n + 1) st =
        (st.nextTicket :: (enterMany n
          { st with isRotating := true,
                    pendingTicket := some st.nextTicket,
                    nextTicket := st.nextTicket + 1 }).1,
         (enterMany n
          { st with isRotating := true,
                    pendingTicket := some st.nextTicket,
                    nextTicket := st.nextTicket + 1 }).2) := by
      simp [enterMany, rotateEnter, h]
    have hrest := enterMany_while_rotating st.nextTicket n
      { st with isRotating := true,
                pendingTicket := some st.nextTicket,
                nextTicket := st.nextTicket + 1 } rfl rfl
    rw [hstep, hrest]
    simp [rotateFinish, List.replicate]
  · intro st h
    cases hsb : st.standby with
    | some b => simp [hotSwapStep, h, hsb]
    | none => simp [hotSwapStep, h, hsb]

/-- C6 witness: the amended theorem applied to three concurrent entries
from a quiescent pool and one hotSwap step. -/
theorem C6_rotation_amended_witness :
    (enterMany 3 (⟨5, some 5, false, none, 0, 0⟩ : RotSt)).1 =
      List.replicate 3 0 ∧
    (rotateFinish (enterMany 3 (⟨5, some 5, false, none, 0, 0⟩ : RotSt)).2).rotationsDone = 1 ∧
    (hotSwapStep (⟨2, some 1, some 2, false, 0⟩ : HotPoolSt)).2.swapCount = 1 ∧
    (hotSwapStep (⟨2, some 1, some 2, false, 0⟩ : HotPoolSt)).1 =
      Except.ok (some 2) ∧
    (hotSwapStep (⟨2, some 1, none, false, 0⟩ : HotPoolSt)).1 =
      Except.error "TypeError: Cannot read properties of null (reading id)" := by
  refine ⟨?_, ?_, ?_, ?_, ?_⟩
  · exact (C6_rotation_amended.1 2 (⟨5, some 5, false, none, 0, 0⟩ : RotSt) rfl).1
  · exact (C6_rotation_amended.1 2 (⟨5, some 5, false, none, 0, 0⟩ : RotSt) rfl).2.2.2.1
  · exact (C6_rotation_amended.2 (⟨2, some 1, some 2, false, 0⟩ : HotPoolSt) rfl).1
  · exact (C6_rotation_amended.2 (⟨2, some 1, some 2, false, 0⟩ : HotPoolSt) rfl).2.2.2.1
      2 rfl
  · exact (C6_rotation_amended.2 (⟨2, some 1, none, false, 0⟩ : HotPoolSt) rfl).2.2.2.2
      rfl

/-! ## Acquisition theorems -/

/-- C7 counterexample: when neither session of the src/unnamed/part_000
pool is ready, getSession raises immediately with zero rotation or
recovery attempts, so the claim that acquisition either returns a ready
session or performs one recovery attempt before raising fails there. -/
theorem C7_counterexample :
    getSessionV2 (some { id := 1, isReady := false }) none =
      (Except.error "No sessions available", 0) := by
  rfl

/-- C7 amended: src/server.js getSession returns a ready primary
directly; otherwise it performs exactly one forceRotate recovery attempt
and returns the new ready primary, raises the pool unavailability error
when the rotated primary is not ready, and propagates the rotation
failure itself when the recovery throws.  The src/unnamed/part_000
getSession returns a ready active, promotes a ready standby via one
hotSwap, and otherwise raises immediately with no recovery attempt. -/
theorem C7_acquire_amended :
    (∀ (s : SessRef) (rec : Except String SessRef), s.isReady = true →
        getSessionModel (some s) rec = (Except.ok s, 0)) ∧
    (∀ (p : Option SessRef) (rec : Except String SessRef), notReadyOpt p →
        getSessionModel p rec = recoverOutcome rec) ∧
    (∀ s2 : SessRef, s2.isReady = true →
        recoverOutcome (Except.ok s2) = (Except.ok s2, 1)) ∧
    (∀ s2 : SessRef, s2.isReady = false →
        recoverOutcome (Except.ok s2) =
          (Except.error "Session unavailable after recovery attempt", 1)) ∧
    (∀ e : String, recoverOutcome (Except.error e) = (Except.error e, 1)) ∧
    (∀ (sb : Option SessRef) (a : SessRef), a.isReady = true →
        getSessionV2 (some a) sb = (Except.ok a, 0)) ∧
    (∀ (act : Option SessRef) (b : SessRef), notReadyOpt act →
        b.isReady = true →
        getSessionV2 act (some b) = (Except.ok b, 1)) ∧
    (∀ act sb : Option SessRef, notReadyOpt act → notReadyOpt sb →
        getSessionV2 act sb = (Except.error "No sessions available", 0)) := by
  refine ⟨?_, ?_, ?_, ?_, ?_, ?_, ?_, ?_⟩
  · intro s rec h
    simp [getSessionModel, h]
  · intro p rec h
    cases p with
    | none => simp [getSessionModel]
    | some s => simp [getSessionModel, h s rfl]
  · intro s2 h
    simp [recoverOutcome, h]
  · intro s2 h
    simp [recoverOutcome, h]
  · intro e
    simp [recoverOutcome]
  · intro sb a h
    simp [getSessionV2, h]
  · intro act b h hb
    cases act with
    | none => simp [getSessionV2, v2Fallback, hb]
    | some a => simp [getSessionV2, v2Fallback, h a rfl, hb]
  · intro act sb h hsb
    cases act with
    | none =>
        cases sb with
        | none => simp [getSessionV2, v2Fallback]
        | some b => simp [getSessionV2, v2Fallback, hsb b rfl]
    | some a =>
        cases sb with
        | none => simp [getSessionV2, v2Fallback, h a rfl]
        | some b => simp [getSessionV2, v2Fallback, h a rfl, hsb b rfl]

/-- C7 witness: the amended theorem applied at concrete pool states. -/
theorem C7_acquire_amended_witness :
    getSessionModel (some { id := 4, isReady := true })
      (Except.error "Login Timeout") =
      (Except.ok { id := 4, isReady := true }, 0) ∧
    getSessionModel (some { id := 4, isReady := false })
      (Except.ok { id := 5, isReady := false }) =
      (Except.error "Session unavailable after recovery attempt", 1) ∧
    getSessionV2 (some { id := 1, isReady := false })
      (some { id := 2, isReady := true }) =
      (Except.ok { id := 2, isReady := true }, 1) := by
  refine ⟨?_, ?_, ?_⟩
  · exact C7_acquire_amended.1 { id := 4, isReady := true }
      (Except.error "Login Timeout") rfl
  · have h2 := C7_acquire_amended.2.1 (some { id := 4, isReady := false })
      (Except.ok { id := 5, isReady := false })
      (fun s hs => by cases hs; rfl)
    have h4 := C7_acquire_amended.2.2.2.1 { id := 5, isReady := false } rfl
    rw [h2, h4]
  · exact C7_acquire_amended.2.2.2.2.2.2.1
      (some { id := 1, isReady := false }) { id := 2, isReady := true }
      (fun s hs => by cases hs; rfl) rfl

/-! ## Fresh-login and login-timeout theorems -/

theorem initFrom_ok_token (obs : Nat → Nat → PageObs) (s : SessionM) :
    ∀ (rem attempt : Nat) (u : Unit) (s2 : SessionM),
      initFrom obs s rem attempt = (Except.ok u, s2) →
      ∃ a t, attempt ≤ a ∧ a < attempt + rem ∧
        waitForLoginModel (obs a) = Except.ok t ∧
        s2.token = some t ∧ s2.isReady = true ∧ s2.status = "ready" := by
  intro rem
  induction rem with
  | zero =>
      intro attempt u s2 h
      rw [initFrom] at h
      exact Except.noConfusion (congrArg Prod.fst h)
  | succ k ih =>
      intro attempt u s2 h
      rw [initFrom] at h
      split at h
      · rename_i t hw
        injection h with h1 h2
        subst h2
        exact ⟨attempt, t, le_refl _, by omega, hw, rfl, rfl, rfl⟩
      · rename_i e hw
        split at h
        · exact Except.noConfusion (congrArg Prod.fst h)
        · obtain ⟨a, t, ha1, ha2, ha3, ha4⟩ := ih (attempt + 1) u s2 h
          exact ⟨a, t, by omega, by omega, ha3, ha4⟩

/-- C8: no credential is ever carried over into a new session: the pool
builds every session by passing a null token to init, whose result is
independent of both the persisted credential cache and the injected-token
parameter, and every successfully created session obtained its token from
a fresh login wait performed during one of the init attempts. -/
theorem C8_fresh_login (c : Nat) (p1 p2 inj : Option String)
    (obs : Nat → Nat → PageObs) (s : SessionM) :
    createSessionM c p1 obs = createSessionM c p2 obs ∧
    initModel inj obs s = initModel none obs s ∧
    (∀ (sess : SessionM) (n : Nat),
      createSessionM c p1 obs = (Except.ok sess, n) →
      sess.isReady = true ∧ sess.status = "ready" ∧
      ∃ a t, 1 ≤ a ∧ a ≤ INIT_MAX_RETRIES ∧
        waitForLoginModel (obs a) = Except.ok t ∧ sess.token = some t) := by
  refine ⟨rfl, rfl, ?_⟩
  intro sess n h
  rw [createSessionM] at h
  split at h
  · rename_i u s2 hinit
    injection h with h1 h2
    injection h1 with h1
    subst h1
    unfold initModel at hinit
    obtain ⟨a, t, ha1, ha2, ha3, ha4, ha5, ha6⟩ :=
      initFrom_ok_token obs
        { id := c + 1, token := none, isReady := false,
          status := "initializing" }
        INIT_MAX_RETRIES 1 u s2 hinit
    exact ⟨ha5, ha6, a, t, ha1, by omega, ha3, ha4⟩
  · rename_i e s2 hinit
    exact Except.noConfusion (congrArg Prod.fst h)

/-- C8 witness: the theorem applied with a persisted credential present
and an observation stream that logs in at the first tick. -/
theorem C8_fresh_login_witness :
    createSessionM 0 (some "persisted-credential-from-a-prior-run")
        (fun _ _ => ⟨true, RawCred.str "abcdefghijklmnopqrstuvwxyz012345"⟩) =
      createSessionM 0 none
        (fun _ _ => ⟨true, RawCred.str "abcdefghijklmnopqrstuvwxyz012345"⟩) ∧
    ((⟨1, some "abcdefghijklmnopqrstuvwxyz012345", true, "ready"⟩ :
        SessionM).isReady = true ∧
      (⟨1, some "abcdefghijklmnopqrstuvwxyz012345", true, "ready"⟩ :
        SessionM).status = "ready" ∧
      ∃ a t, 1 ≤ a ∧ a ≤ INIT_MAX_RETRIES ∧
        waitForLoginModel ((fun _ _ => ⟨true, RawCred.str "abcdefghijklmnopqrstuvwxyz012345"⟩) a) =
          Except.ok t ∧
        (⟨1, some "abcdefghijklmnopqrstuvwxyz012345", true, "ready"⟩ :
          SessionM).token = some t) := by
  constructor
  · exact (C8_fresh_login 0 (some "persisted-credential-from-a-prior-run")
      none none
      (fun _ _ => ⟨true, RawCred.str "abcdefghijklmnopqrstuvwxyz012345"⟩)
      ⟨0, none, false, ""⟩).1
  · exact (C8_fresh_login 0 (some "persisted-credential-from-a-prior-run")
      none none
      (fun _ _ => ⟨true, RawCred.str "abcdefghijklmnopqrstuvwxyz012345"⟩)
      ⟨0, none, false, ""⟩).2.2
      ⟨1, some "abcdefghijklmnopqrstuvwxyz012345", true, "ready"⟩ 1 rfl

theorem scanTicks_none (f : Nat → Option String) (h : ∀ i, f i = none) :
    ∀ (n i : Nat), scanTicks f i n = none := by
  intro n
  induction n with
  | zero => intro i; rfl
  | succ k ih => intro i; simp [scanTicks, h i, ih]

/-- C9: when no tick of the login-wait loop observes a valid credential,
every init attempt raises Login Timeout, and after the three init
attempts are exhausted the session ends dead and not ready; the loop
bound is 60 ticks of 2000 ms, the 120-second bound. -/
theorem C9_login_timeout_dead (obs : Nat → Nat → PageObs) (id : Nat)
    (h : ∀ a i, tickValue (obs a i) = none) :
    initModel none obs
        { id := id, token := none, isReady := false, status := "initializing" } =
      (Except.error "Login Timeout",
        { id := id, token := none, isReady := false, status := "dead" }) ∧
    waitForLoginModel (obs 1) = Except.error "Login Timeout" ∧
    LOGIN_MAX_TICKS * LOGIN_POLL_MS = 120000 ∧
    INIT_MAX_RETRIES = 3 := by
  have hw : ∀ a, waitForLoginModel (obs a) = Except.error "Login Timeout" := by
    intro a
    unfold waitForLoginModel
    rw [scanTicks_none (fun i => tickValue (obs a i)) (h a)]
  refine ⟨?_, hw 1, rfl, rfl⟩
  unfold initModel INIT_MAX_RETRIES
  rw [initFrom, hw 1]
  norm_num
  rw [initFrom, hw 2]
  norm_num
  rw [initFrom, hw 3]
  rfl

/-- C9 witness: the theorem applied to an observation stream that never
reports a credential. -/
theorem C9_login_timeout_dead_witness :
    initModel none (fun _ _ => ⟨false, RawCred.nullish⟩)
        { id := 7, token := none, isReady := false, status := "initializing" } =
      (Except.error "Login Timeout",
        { id := 7, token := none, isReady := false, status := "dead" }) :=
  (C9_login_timeout_dead (fun _ _ => ⟨false, RawCred.nullish⟩)
    7 (fun _ _ => rfl)).1

/-! ## Page status totality theorem -/

/-- C10: getPageStatus never propagates a failure: whatever the in-page
environment, when the page is absent or the evaluation throws, it returns
the api-false, token-null record, and by its type every outcome is a
record of the claimed shape. -/
theorem C10_page_status_total (inp : GPSInput)
    (h : inp.hasPage = false ∨ inp.evalThrows = true) :
    getPageStatus inp = { api := false, token := none } := by
  cases hp : inp.hasPage with
  | false => simp [getPageStatus, hp]
  | true =>
      rcases h with h | h
      · rw [hp] at h
        exact absurd h (by simp)
      · simp [getPageStatus, hp, h]

/-- C10 witness: the theorem applied to a pageless session and to a
throwing evaluation over a storage that does hold a token. -/
theorem C10_page_status_total_witness :
    getPageStatus
        ⟨false, false,
         ⟨true, true, false,
          RawCred.str "abcdefghijklmnopqrstuvwxyz012345",
          RawCred.nullish, []⟩⟩ =
      { api := false, token := none } ∧
    getPageStatus
        ⟨true, true,
         ⟨true, true, false,
          RawCred.str "abcdefghijklmnopqrstuvwxyz012345",
          RawCred.nullish, []⟩⟩ =
      { api := false, token := none } :=
  ⟨C10_page_status_total _ (Or.inl rfl), C10_page_status_total _ (Or.inr rfl)⟩

end AiIdeApi
